import Mathlib

/-!
Verification of the cache-coordination core of `ViewerOutput`
(`app/node/output/viewer/viewer.cpp`): interval-cache invalidation,
length resolution, operation-stack batching, stream-socket reconciliation,
duration/rate display and the custom-state loader.
-/

namespace Olive

/-- Half-open time interval over exact rationals, mirroring `TimeRange` with
members `in()`/`out()` (reserved words here, so `rin`/`rout`). -/
structure TimeRange where
  rin : ℚ
  rout : ℚ
deriving DecidableEq

/-- Job generation stamp (`qint64 job_time`). -/
abbrev JobTime := Int

/-- The two cached media kinds. -/
inductive Medium where
  | video
  | audio
deriving DecidableEq

/-- Mirror of `Track::Type` (`kVideo`, `kAudio`, `kSubtitle`, `kNone`). -/
inductive TrackType where
  | video
  | audio
  | subtitle
  | none'
deriving DecidableEq

/-- Socket name constant from viewer.cpp line 30. -/
def kVideoParamsInput : String := "video_param_in"

/-- Socket name constant from viewer.cpp line 31. -/
def kAudioParamsInput : String := "audio_param_in"

/-- Socket name constant from viewer.cpp line 32. -/
def kTextureInput : String := "tex_in"

/-- Socket name constant from viewer.cpp line 33. -/
def kSamplesInput : String := "samples_in"

/-- Modelled from the spec: the per-medium interval cache (`FrameHashCache` /
`AudioPlaybackCache`), whose implementation is not part of the excerpt.
Per spec sections 3 and 4.1 it is a mapping from time points to a validity
marker plus a last-write job-time stamp, together with a scalar declared
length used to clip invalidation ranges. -/
structure IntervalCache where
  validity : ℚ → Bool × JobTime
  length : ℚ

/-- Modelled from the spec: `Invalidate(range, job_time)` marks `range`,
clamped to `[0, declared_length)`, as not rendered; it is a no-op when the
clamped range is degenerate; an operation carrying an older job-time than a
point's last write is discarded (spec 4.1 and the section-8 property
"regardless of call order"). -/
def IntervalCache.Invalidate (c : IntervalCache) (r : TimeRange) (t : JobTime) : IntervalCache :=
  let cr : TimeRange := ⟨max 0 r.rin, min c.length r.rout⟩
  if cr.rin = cr.rout then c
  else
    { c with validity := fun p =>
        if cr.rin ≤ p ∧ p < cr.rout ∧ (c.validity p).2 ≤ t then (false, t) else c.validity p }

/-- Modelled from the spec: `Validate(range, job_time)` marks `range` as
holding current content, subject to the staleness rule: a call carrying an
older job-time than a point's last write is discarded (spec 4.1). -/
def IntervalCache.Validate (c : IntervalCache) (r : TimeRange) (t : JobTime) : IntervalCache :=
  { c with validity := fun p =>
      if r.rin ≤ p ∧ p < r.rout ∧ (c.validity p).2 ≤ t then (true, t) else c.validity p }

/-- Modelled from the spec: `SetLength(length)` clips existing validity to the
new length; extending the length does not itself validate new trailing time
(spec 4.1). -/
def IntervalCache.SetLength (c : IntervalCache) (len : ℚ) : IntervalCache :=
  { validity := fun p => if p < len then c.validity p else (false, (c.validity p).2),
    length := len }

/-- Modelled from the spec: the graph-engine boundary the viewer consults
(spec section 6): the virtual `GetCustomLength`, `IsInputConnected`, and the
value of the rational "length" attribute read from the table produced by
`NodeTraverser::GenerateTable` on the output connected to the given input,
evaluated at a probe range. -/
structure Env where
  customLength : TrackType → ℚ
  connected : String → Bool
  probeLengthAttr : String → TimeRange → ℚ

/-- Video length candidate: first block of `ViewerOutput::VerifyLength`
(viewer.cpp lines 304-313, without the `SetLength` side effect). A null
`rational` is 0, and `rational()` is 0. -/
def videoCandidate (env : Env) : ℚ :=
  let video_length := env.customLength TrackType.video
  if video_length = 0 ∧ env.connected kTextureInput then
    env.probeLengthAttr kTextureInput ⟨0, 0⟩
  else
    video_length

/-- Audio length candidate: second block of `ViewerOutput::VerifyLength`
(viewer.cpp lines 315-324, without the `SetLength` side effect). -/
def audioCandidate (env : Env) : ℚ :=
  let audio_length := env.customLength TrackType.audio
  if audio_length = 0 ∧ env.connected kSamplesInput then
    env.probeLengthAttr kSamplesInput ⟨0, 0⟩
  else
    audio_length

/-- Subtitle length candidate: third block of `ViewerOutput::VerifyLength`
(viewer.cpp line 327). -/
def subtitleCandidate (env : Env) : ℚ :=
  env.customLength TrackType.subtitle

/-- Value of `qMax(subtitle_length, qMax(video_length, audio_length))`
(viewer.cpp line 330). -/
def resolvedLength (env : Env) : ℚ :=
  max (subtitleCandidate env) (max (videoCandidate env) (audioCandidate env))

/-- Mutable state of a `ViewerOutput` relevant to cache coordination:
`operation_stack_`, `last_length_`, `video_frame_cache_`,
`audio_playback_cache_`. -/
structure ViewerState where
  operation_stack : Int
  last_length : ℚ
  video_frame_cache : IntervalCache
  audio_playback_cache : IntervalCache

/-- `ViewerOutput::GetLength` (viewer.cpp lines 251-254): returns
`last_length_`. -/
def GetLength (s : ViewerState) : ℚ := s.last_length

/-- `ViewerOutput::VerifyLength` (viewer.cpp lines 294-336). The Bool records
whether `LengthChanged` was emitted during the call. -/
def VerifyLength (env : Env) (s : ViewerState) : ViewerState × Bool :=
  if s.operation_stack ≠ 0 then
    (s, false)
  else
    let video_length := videoCandidate env
    let audio_length := audioCandidate env
    let subtitle_length := subtitleCandidate env
    let s1 := { s with video_frame_cache := s.video_frame_cache.SetLength video_length,
                       audio_playback_cache := s.audio_playback_cache.SetLength audio_length }
    let real_length := max subtitle_length (max video_length audio_length)
    if real_length ≠ s.last_length then
      ({ s1 with last_length := real_length }, true)
    else
      (s1, false)

/-- `ViewerOutput::BeginOperation` (viewer.cpp lines 362-367): increments the
counter and calls `super::BeginOperation` (base graph engine, out of scope). -/
def BeginOperation (s : ViewerState) : ViewerState :=
  { s with operation_stack := s.operation_stack + 1 }

/-- `ViewerOutput::EndOperation` (viewer.cpp lines 369-374): decrements the
counter and calls `super::EndOperation` (base graph engine, out of scope; it
performs no viewer cache or length work). The Bool records whether
`LengthChanged` was emitted during the call: the body emits nothing. -/
def EndOperation (s : ViewerState) : ViewerState × Bool :=
  ({ s with operation_stack := s.operation_stack - 1 }, false)

/-- Invalidation event as received from and forwarded to the graph engine. -/
structure Event where
  range : TimeRange
  source : String
  element : Int
  job_time : JobTime
deriving DecidableEq

/-- Cache-and-length part of `ViewerOutput::InvalidateCache` (viewer.cpp lines
226-249). The `element` argument is `Q_UNUSED` by this part of the body, so it
is not a parameter here; the list records every interval-cache `Invalidate`
call made (medium, range, job-time), and the Bool whether `LengthChanged` was
emitted by the trailing `VerifyLength`. -/
def InvalidateCacheCore (env : Env) (s : ViewerState) (range : TimeRange)
    (source : String) (job_time : JobTime) :
    ViewerState × List (Medium × TimeRange × JobTime) × Bool :=
  if s.operation_stack = 0 then
    let step :=
      if source = kTextureInput ∨ source = kSamplesInput
         ∨ source = kVideoParamsInput ∨ source = kAudioParamsInput then
        let invalidated_range : TimeRange := ⟨max 0 range.rin, min (GetLength s) range.rout⟩
        if invalidated_range.rin ≠ invalidated_range.rout then
          if source = kTextureInput ∨ source = kVideoParamsInput then
            ({ s with video_frame_cache := s.video_frame_cache.Invalidate invalidated_range job_time },
             [(Medium.video, invalidated_range, job_time)])
          else
            ({ s with audio_playback_cache := s.audio_playback_cache.Invalidate invalidated_range job_time },
             [(Medium.audio, invalidated_range, job_time)])
        else
          (s, [])
      else
        (s, [])
    let v := VerifyLength env step.1
    (v.1, step.2, v.2)
  else
    (s, [], false)

/-- Result of one `ViewerOutput::InvalidateCache` call: the post state, the
interval-cache invalidations performed, whether `LengthChanged` fired, and
the event forwarded to `super::InvalidateCache`. -/
structure InvalidateResult where
  state : ViewerState
  invalidations : List (Medium × TimeRange × JobTime)
  lengthChanged : Bool
  forwarded : Event

/-- `ViewerOutput::InvalidateCache` (viewer.cpp lines 226-249): the cache and
length work (`InvalidateCacheCore`, which never reads the `Q_UNUSED`
element), followed by forwarding the event unchanged to
`super::InvalidateCache` (base graph engine). -/
def InvalidateCache (env : Env) (s : ViewerState) (range : TimeRange)
    (source : String) (element : Int) (job_time : JobTime) : InvalidateResult :=
  let core := InvalidateCacheCore env s range source job_time
  ⟨core.1, core.2.1, core.2.2, ⟨range, source, element, job_time⟩⟩

/-- Input socket id used by `ViewerOutput::AddStream` / `InputResized` for a
stream type (viewer.cpp lines 506-509 and 525-526). -/
def inputIdOf (t : TrackType) : String :=
  match t with
  | TrackType.video => kVideoParamsInput
  | TrackType.audio => kAudioParamsInput
  | _ => ""

/-- Stream-registry state: the sizes of the two parameter arrays, the list of
output sockets (a `Track::Reference(type, i)` is modelled as the pair
`(type, i)`), and the standard values stored in the arrays. Array storage and
output bookkeeping live in the base `Node` class (not in the excerpt) and are
modelled from the spec, section 4.2. -/
structure RegistryState (V : Type) where
  videoArraySize : ℕ
  audioArraySize : ℕ
  outputs : List (TrackType × ℕ)
  vals : TrackType → ℕ → Option V

/-- Modelled from the spec: `Node::InputArraySize` for the two stream arrays. -/
def RegistryState.arraySize {V : Type} (s : RegistryState V) (t : TrackType) : ℕ :=
  match t with
  | TrackType.video => s.videoArraySize
  | TrackType.audio => s.audioArraySize
  | _ => 0

/-- Modelled from the spec: `Node::AddOutput` appends an output socket. -/
def AddOutput (outs : List (TrackType × ℕ)) (id : TrackType × ℕ) : List (TrackType × ℕ) :=
  outs ++ [id]

/-- Modelled from the spec: `Node::RemoveOutput` removes the socket with the
given id. -/
def RemoveOutput (outs : List (TrackType × ℕ)) (id : TrackType × ℕ) : List (TrackType × ℕ) :=
  outs.filter (fun x => !(x == id))

/-- Socket reconciliation of `ViewerOutput::InputResized` (viewer.cpp lines
523-538) acting on the output-socket list: growing runs `AddOutput` for every
index in `[old_size, new_size)`, shrinking runs `RemoveOutput` for every index
in `[new_size, old_size)` (the independent per-index removals of the loop are
written as one filter). -/
def InputResizedOutputs (input : String) (old_size new_size : ℕ)
    (outs : List (TrackType × ℕ)) : List (TrackType × ℕ) :=
  if input = kVideoParamsInput ∨ input = kAudioParamsInput then
    let t := if input = kVideoParamsInput then TrackType.video else TrackType.audio
    if old_size < new_size then
      outs ++ (List.range' old_size (new_size - old_size)).map (fun i => (t, i))
    else if new_size < old_size then
      outs.filter (fun x => !(x.1 == t && decide (new_size ≤ x.2) && decide (x.2 < old_size)))
    else
      outs
  else
    outs

/-- Modelled from the spec: `Node::InputArrayAppend` grows the given array by
one; the `InputArraySizeChanged` signal is connected to
`ViewerOutput::InputResized` (viewer.cpp line 49), so the output sockets are
reconciled in the same step. -/
def InputArrayAppend {V : Type} (s : RegistryState V) (t : TrackType) : RegistryState V :=
  let old_size := s.arraySize t
  { s with
    videoArraySize := if t = TrackType.video then old_size + 1 else s.videoArraySize,
    audioArraySize := if t = TrackType.audio then old_size + 1 else s.audioArraySize,
    outputs := InputResizedOutputs (inputIdOf t) old_size (old_size + 1) s.outputs }

/-- Modelled from the spec: `Node::SetStandardValue` on an array element. -/
def SetStandardValue {V : Type} (s : RegistryState V) (t : TrackType) (index : ℕ)
    (value : V) : RegistryState V :=
  { s with vals := fun t' i => if t' = t ∧ i = index then some value else s.vals t' i }

/-- `ViewerOutput::AddStream` (viewer.cpp lines 502-521): picks the input id
from the stream type (returning -1 for any other type), reads the array size
as the new index, appends to the array (which reconciles sockets through the
`InputResized` connection) and assigns the initial value. -/
def AddStream {V : Type} (t : TrackType) (value : V) (s : RegistryState V) :
    RegistryState V × Int :=
  if t = TrackType.video ∨ t = TrackType.audio then
    let index := s.arraySize t
    let s1 := InputArrayAppend s t
    let s2 := SetStandardValue s1 t index value
    (s2, (index : Int))
  else
    (s, -1)

/-- Modelled from the spec: `Node::InputArrayResize` shrinks or grows a stream
array to `new_size`; values beyond the new size are dropped and the
`InputArraySizeChanged` connection reconciles the output sockets through
`ViewerOutput::InputResized`. -/
def InputArrayResize {V : Type} (s : RegistryState V) (t : TrackType) (new_size : ℕ) :
    RegistryState V :=
  let old_size := s.arraySize t
  { videoArraySize := if t = TrackType.video then new_size else s.videoArraySize,
    audioArraySize := if t = TrackType.audio then new_size else s.audioArraySize,
    outputs := InputResizedOutputs (inputIdOf t) old_size new_size s.outputs,
    vals := fun t' i => if t' = t ∧ new_size ≤ i then none else s.vals t' i }

/-- Registry with no streams, no sockets and no values. -/
def emptyRegistry (V : Type) : RegistryState V :=
  { videoArraySize := 0, audioArraySize := 0, outputs := [], vals := fun _ _ => none }

/-- Iterates `AddStream` `n` times with the same initial value. -/
def addStreams {V : Type} (t : TrackType) (value : V) : ℕ → RegistryState V → RegistryState V
  | 0, s => s
  | n + 1, s => (AddStream t value (addStreams t value n s)).1

/-- Mirror of `VideoParams::Type` (`kVideoTypeVideo`, `kVideoTypeStill`,
`kVideoTypeImageSequence`). -/
inductive VideoType where
  | video
  | still
  | imageSequence
deriving DecidableEq

/-- Modelled from the spec: the `VideoParams` stream descriptor (its class is
not in the excerpt); only the accessors used by the viewer's display queries
are kept: `is_valid()`, `video_type()`, `frame_rate()`, `time_base()`,
`duration()` (an integer timestamp in the time base) and `enabled()`.
`frame_rate_as_time_base()` is the reciprocal of the frame rate. -/
structure VideoParams where
  valid : Bool
  videoType : VideoType
  frameRate : ℚ
  timeBase : ℚ
  duration : Int
  enabled : Bool
deriving DecidableEq

/-- Modelled from the spec: `VideoParams::frame_rate_as_time_base()`. -/
def VideoParams.frame_rate_as_time_base (v : VideoParams) : ℚ :=
  v.frameRate⁻¹

/-- Modelled from the spec: a default-constructed `VideoParams()` is invalid
and disabled. -/
def defaultVideoParams : VideoParams :=
  { valid := false, videoType := VideoType.video, frameRate := 0, timeBase := 0,
    duration := 0, enabled := false }

/-- Modelled from the spec: the `AudioParams` stream descriptor; only the
accessors used by the display queries are kept: `is_valid()`,
`sample_rate()`, `time_base()`, `duration()` and `enabled()`. -/
structure AudioParams where
  valid : Bool
  sampleRate : Int
  timeBase : ℚ
  duration : Int
  enabled : Bool
deriving DecidableEq

/-- Modelled from the spec: a default-constructed `AudioParams()` is invalid
and disabled. -/
def defaultAudioParams : AudioParams :=
  { valid := false, sampleRate := 0, timeBase := 0, duration := 0, enabled := false }

/-- Stream descriptors stored in the two parameter arrays, as read back by
`GetVideoParams(i)` / `GetAudioParams(i)` (accessors in the header, not in the
excerpt; modelled from the spec's Stream Registry as ordered sequences). -/
structure StreamsState where
  videoStreams : List VideoParams
  audioStreams : List AudioParams
deriving DecidableEq

/-- `ViewerOutput::GetFirstEnabledVideoStream` (viewer.cpp lines 154-167):
first descriptor with the enabled flag, else a default `VideoParams()`. -/
def GetFirstEnabledVideoStream (s : StreamsState) : VideoParams :=
  (s.videoStreams.find? (fun vp => vp.enabled)).getD defaultVideoParams

/-- `ViewerOutput::GetFirstEnabledAudioStream` (viewer.cpp lines 169-182). -/
def GetFirstEnabledAudioStream (s : StreamsState) : AudioParams :=
  (s.audioStreams.find? (fun ap => ap.enabled)).getD defaultAudioParams

/-- `ViewerOutput::HasEnabledVideoStreams` (viewer.cpp lines 144-147). -/
def HasEnabledVideoStreams (s : StreamsState) : Bool :=
  (GetFirstEnabledVideoStream s).valid

/-- `ViewerOutput::HasEnabledAudioStreams` (viewer.cpp lines 149-152). -/
def HasEnabledAudioStreams (s : StreamsState) : Bool :=
  (GetFirstEnabledAudioStream s).valid

/-- Mirror of `Timecode::Display`. -/
inductive Display where
  | timecodeDropFrame
  | timecodeNonDropFrame
  | timecodeSeconds
  | frames
  | milliseconds
deriving DecidableEq

/-- Modelled from the spec: `Timecode::rescale_timestamp_ceil` converts a
timestamp between rational time bases, rounding up (exact rational rescale). -/
def rescale_timestamp_ceil (ts : Int) (source_timebase dest_timebase : ℚ) : Int :=
  ⌈((ts : ℚ) * source_timebase) / dest_timebase⌉

/-- Modelled from the spec: the result of `Timecode::timestamp_to_timecode` is
kept symbolic as the triple of its arguments (the string formatter is outside
the excerpt); `empty` is the empty `QString()`. -/
inductive DurationDisplay where
  | timecode (timestamp : Int) (timebase : ℚ) (display : Display)
  | empty
deriving DecidableEq

/-- `ViewerOutput::duration` (viewer.cpp lines 93-124): video first when the
first enabled video stream is valid and not a still, then audio (preferring a
seconds display over the two timecode displays), else empty. -/
def durationDisplayOf (s : StreamsState) (timecodeDisplay : Display) : DurationDisplay :=
  let video := GetFirstEnabledVideoStream s
  if video.valid = true ∧ video.videoType ≠ VideoType.still then
    let frame_rate_timebase := video.frame_rate_as_time_base
    DurationDisplay.timecode
      (rescale_timestamp_ceil video.duration video.timeBase frame_rate_timebase)
      frame_rate_timebase
      timecodeDisplay
  else
    let audio := GetFirstEnabledAudioStream s
    if audio.valid = true then
      let display :=
        if timecodeDisplay = Display.timecodeDropFrame
           ∨ timecodeDisplay = Display.timecodeNonDropFrame then
          Display.timecodeSeconds
        else
          timecodeDisplay
      DurationDisplay.timecode audio.duration audio.timeBase display
    else
      DurationDisplay.empty

/-- Modelled from the spec: the result of `ViewerOutput::rate` is kept as the
branch taken with its payload (`tr("%1 FPS")`, `tr("%1 Hz")` or the empty
`QString()`; the string formatter is outside the excerpt). -/
inductive RateDisplay where
  | fps (r : ℚ)
  | hz (r : Int)
  | empty
deriving DecidableEq

/-- `ViewerOutput::rate` (viewer.cpp lines 126-142): when any enabled video
stream exists, the first enabled video stream's FPS is returned only if it is
not a still image (the audio branch is an `else if`, so it is not reached);
audio Hz is returned only when no enabled video stream exists; otherwise the
empty string. -/
def rateDisplayOf (s : StreamsState) : RateDisplay :=
  if HasEnabledVideoStreams s then
    let video_stream := GetFirstEnabledVideoStream s
    if video_stream.videoType ≠ VideoType.still then
      RateDisplay.fps video_stream.frameRate
    else
      RateDisplay.empty
  else if HasEnabledAudioStreams s then
    RateDisplay.hz (GetFirstEnabledAudioStream s).sampleRate
  else
    RateDisplay.empty

/-- Result of one terminating `ViewerOutput::LoadCustom` call: the returned
Bool and whether `timeline_points_.Load(reader)` ran. -/
structure LoadResult where
  returned : Bool
  pointsLoaded : Bool
deriving DecidableEq

/-- `ViewerOutput::LoadCustom` (viewer.cpp lines 484-492), fuel-indexed: the
body either handles a reader positioned at a "points" element or calls itself
again with identical, unchanged arguments (the reader's current element name
does not change between the calls), so the recursion is modelled with an
explicit step budget and `none` means the budget was exhausted without the
call returning. -/
def LoadCustom : ℕ → String → Option LoadResult
  | 0, _ => none
  | fuel + 1, name =>
    if name = "points" then
      some { returned := true, pointsLoaded := true }
    else
      LoadCustom fuel name

/-! Helper lemmas about `VerifyLength`. -/

lemma VerifyLength_of_nonzero (env : Env) (s : ViewerState) (h : s.operation_stack ≠ 0) :
    VerifyLength env s = (s, false) := by
  unfold VerifyLength
  rw [if_pos h]

lemma VerifyLength_fst_last_length (env : Env) (s : ViewerState) (h : s.operation_stack = 0) :
    (VerifyLength env s).1.last_length = resolvedLength env := by
  unfold VerifyLength resolvedLength
  rw [if_neg (not_not_intro h)]
  by_cases hr : max (subtitleCandidate env) (max (videoCandidate env) (audioCandidate env))
      ≠ s.last_length
  · rw [if_pos hr]
  · rw [if_neg hr]
    exact (not_not.mp hr).symm

lemma VerifyLength_snd_iff (env : Env) (s : ViewerState) (h : s.operation_stack = 0) :
    ((VerifyLength env s).2 = true ↔ resolvedLength env ≠ s.last_length) := by
  unfold VerifyLength resolvedLength
  rw [if_neg (not_not_intro h)]
  by_cases hr : max (subtitleCandidate env) (max (videoCandidate env) (audioCandidate env))
      ≠ s.last_length
  · rw [if_pos hr]
    simpa using hr
  · rw [if_neg hr]
    simpa using hr

lemma VerifyLength_fst_video_cache (env : Env) (s : ViewerState) (h : s.operation_stack = 0) :
    (VerifyLength env s).1.video_frame_cache = s.video_frame_cache.SetLength (videoCandidate env) := by
  unfold VerifyLength
  rw [if_neg (not_not_intro h)]
  by_cases hr : max (subtitleCandidate env) (max (videoCandidate env) (audioCandidate env))
      ≠ s.last_length
  · rw [if_pos hr]
  · rw [if_neg hr]

lemma VerifyLength_fst_audio_cache (env : Env) (s : ViewerState) (h : s.operation_stack = 0) :
    (VerifyLength env s).1.audio_playback_cache
      = s.audio_playback_cache.SetLength (audioCandidate env) := by
  unfold VerifyLength
  rw [if_neg (not_not_intro h)]
  by_cases hr : max (subtitleCandidate env) (max (videoCandidate env) (audioCandidate env))
      ≠ s.last_length
  · rw [if_pos hr]
  · rw [if_neg hr]

/-! Concrete sample objects used by witnesses and counterexamples. -/

/-- Empty cache: nothing validated, all stamps 0, declared length 0. -/
def sampleCache : IntervalCache :=
  { validity := fun _ => (false, 0), length := 0 }

/-- Environment with no custom lengths, a connected texture producer whose
probe reports length 5, and no connected sample producer. -/
def sampleEnv : Env :=
  { customLength := fun _ => 0,
    connected := fun input => input = kTextureInput,
    probeLengthAttr := fun _ _ => 5 }

/-- Viewer state outside any batch, with memoized length 0. -/
def sampleStateZero : ViewerState :=
  { operation_stack := 0, last_length := 0,
    video_frame_cache := sampleCache, audio_playback_cache := sampleCache }

/-- Viewer state inside a batch (counter 1), with memoized length 0. -/
def sampleStateBatch : ViewerState :=
  { operation_stack := 1, last_length := 0,
    video_frame_cache := sampleCache, audio_playback_cache := sampleCache }

/-- C10: `LoadCustom` terminates, returning true after loading the timeline
points, exactly when the reader's current element is named "points"; for any
other element name the body calls itself with identical, unchanged arguments,
so no step budget suffices and the call never terminates. -/
theorem c10_load_custom_points_or_diverges (name : String) (fuel : ℕ) :
    (name = "points" →
        LoadCustom (fuel + 1) name = some { returned := true, pointsLoaded := true })
    ∧ (name ≠ "points" → LoadCustom fuel name = none) := by
  constructor
  · intro h
    simp [LoadCustom, h]
  · intro h
    induction fuel with
    | zero => simp [LoadCustom]
    | succ n ih => simpa [LoadCustom, h] using ih

/-- Witness for C10 at the element names "points" and "fake". -/
theorem c10_witness :
    ("points" = "points"
        ∧ LoadCustom 1 "points" = some { returned := true, pointsLoaded := true })
    ∧ ("fake" ≠ "points" ∧ LoadCustom 9 "fake" = none) :=
  ⟨⟨rfl, (c10_load_custom_points_or_diverges "points" 0).1 rfl⟩,
   ⟨by decide, (c10_load_custom_points_or_diverges "fake" 9).2 (by decide)⟩⟩

/-- C9: `InvalidateCache` is insensitive to the element index: for every
range, socket name, job-time and any two element indices, the resulting
viewer state, the interval-cache invalidations performed and the length
recomputation outcome are identical; the element is folded into the same
treatment regardless of its value. -/
theorem c9_element_insensitive (env : Env) (s : ViewerState) (range : TimeRange)
    (source : String) (e1 e2 : Int) (t : JobTime) :
    (InvalidateCache env s range source e1 t).state
        = (InvalidateCache env s range source e2 t).state
    ∧ (InvalidateCache env s range source e1 t).invalidations
        = (InvalidateCache env s range source e2 t).invalidations
    ∧ (InvalidateCache env s range source e1 t).lengthChanged
        = (InvalidateCache env s range source e2 t).lengthChanged :=
  ⟨rfl, rfl, rfl⟩

lemma IntervalCache.SetLength_length (c : IntervalCache) (len : ℚ) :
    (c.SetLength len).length = len := rfl

lemma VerifyLength_zero_spec (env : Env) (s : ViewerState) (h : s.operation_stack = 0) :
    (VerifyLength env s).1.video_frame_cache.length = videoCandidate env
    ∧ (VerifyLength env s).1.audio_playback_cache.length = audioCandidate env
    ∧ (VerifyLength env s).1.last_length = resolvedLength env
    ∧ ((VerifyLength env s).2 = true ↔ resolvedLength env ≠ s.last_length) := by
  refine ⟨?_, ?_, ?_, VerifyLength_snd_iff env s h⟩
  · rw [VerifyLength_fst_video_cache env s h, IntervalCache.SetLength_length]
  · rw [VerifyLength_fst_audio_cache env s h, IntervalCache.SetLength_length]
  · exact VerifyLength_fst_last_length env s h

lemma InvalidateCacheCore_zero_spec (env : Env) (s : ViewerState) (range : TimeRange)
    (source : String) (t : JobTime) (h : s.operation_stack = 0) :
    (InvalidateCacheCore env s range source t).1.video_frame_cache.length = videoCandidate env
    ∧ (InvalidateCacheCore env s range source t).1.audio_playback_cache.length = audioCandidate env
    ∧ (InvalidateCacheCore env s range source t).1.last_length = resolvedLength env
    ∧ ((InvalidateCacheCore env s range source t).2.2 = true
        ↔ resolvedLength env ≠ s.last_length) := by
  unfold InvalidateCacheCore
  rw [if_pos h]
  dsimp only
  split_ifs with h1 h2 h3
  all_goals exact VerifyLength_zero_spec env _ (by exact h)

/-- C2: while the operation-stack counter is nonzero, `InvalidateCache`
mutates no interval cache and performs no length recomputation, only
forwarding the event unchanged; when the counter is zero, `VerifyLength` is
re-run on every call (the cache declared lengths and the memoized length are
freshly recomputed, and `LengthChanged` fires exactly when the resolved
length differs from the memoized one), and the event is still forwarded
unchanged to the base graph engine. -/
theorem c2_batch_suppresses_and_always_verifies (env : Env) (s : ViewerState)
    (range : TimeRange) (source : String) (element : Int) (t : JobTime) :
    (s.operation_stack ≠ 0 →
        (InvalidateCache env s range source element t).state = s
        ∧ (InvalidateCache env s range source element t).invalidations = []
        ∧ (InvalidateCache env s range source element t).lengthChanged = false
        ∧ (InvalidateCache env s range source element t).forwarded
            = { range := range, source := source, element := element, job_time := t })
    ∧ (s.operation_stack = 0 →
        (InvalidateCache env s range source element t).state.video_frame_cache.length
            = videoCandidate env
        ∧ (InvalidateCache env s range source element t).state.audio_playback_cache.length
            = audioCandidate env
        ∧ (InvalidateCache env s range source element t).state.last_length = resolvedLength env
        ∧ ((InvalidateCache env s range source element t).lengthChanged = true
            ↔ resolvedLength env ≠ s.last_length)
        ∧ (InvalidateCache env s range source element t).forwarded
            = { range := range, source := source, element := element, job_time := t }) := by
  constructor
  · intro h
    have hcore : InvalidateCacheCore env s range source t = (s, [], false) := by
      unfold InvalidateCacheCore
      rw [if_neg h]
    refine ⟨?_, ?_, ?_, rfl⟩
    · show (InvalidateCacheCore env s range source t).1 = s
      rw [hcore]
    · show (InvalidateCacheCore env s range source t).2.1 = []
      rw [hcore]
    · show (InvalidateCacheCore env s range source t).2.2 = false
      rw [hcore]
  · intro h
    obtain ⟨h1, h2, h3, h4⟩ := InvalidateCacheCore_zero_spec env s range source t h
    exact ⟨h1, h2, h3, h4, rfl⟩

/-- Witness for C2 in a batch (counter 1) and outside one (counter 0). -/
theorem c2_witness :
    (sampleStateBatch.operation_stack ≠ 0
      ∧ (InvalidateCache sampleEnv sampleStateBatch ⟨0, 3⟩ kTextureInput 0 7).state
          = sampleStateBatch)
    ∧ (sampleStateZero.operation_stack = 0
      ∧ (InvalidateCache sampleEnv sampleStateZero ⟨0, 3⟩ kTextureInput 0 7).state.last_length
          = resolvedLength sampleEnv) :=
  ⟨⟨by decide,
    ((c2_batch_suppresses_and_always_verifies sampleEnv sampleStateBatch ⟨0, 3⟩
        kTextureInput 0 7).1 (by decide)).1⟩,
   ⟨rfl,
    (((c2_batch_suppresses_and_always_verifies sampleEnv sampleStateZero ⟨0, 3⟩
        kTextureInput 0 7).2 rfl).2.2).1⟩⟩

/-- C3: with the counter zero, `VerifyLength` memoizes the maximum of the
video, audio and subtitle candidates, sets the two interval caches' declared
lengths to their respective candidates, and each of the video/audio
candidates, when the locally declared custom length is null and the
corresponding input is connected, is the rational "length" attribute read
from the value table of the connected producer evaluated at the zero-length
probe range `[0, 0)`. -/
theorem c3_resolved_length_is_max_of_candidates (env : Env) (s : ViewerState)
    (h : s.operation_stack = 0) :
    (VerifyLength env s).1.last_length
        = max (subtitleCandidate env) (max (videoCandidate env) (audioCandidate env))
    ∧ (VerifyLength env s).1.video_frame_cache.length = videoCandidate env
    ∧ (VerifyLength env s).1.audio_playback_cache.length = audioCandidate env
    ∧ (env.customLength TrackType.video = 0 → env.connected kTextureInput = true →
        videoCandidate env = env.probeLengthAttr kTextureInput ⟨0, 0⟩)
    ∧ (env.customLength TrackType.audio = 0 → env.connected kSamplesInput = true →
        audioCandidate env = env.probeLengthAttr kSamplesInput ⟨0, 0⟩) := by
  obtain ⟨h1, h2, h3, _⟩ := VerifyLength_zero_spec env s h
  refine ⟨h3, h1, h2, ?_, ?_⟩
  · intro hc hconn
    simp [videoCandidate, hc, hconn]
  · intro hc hconn
    simp [audioCandidate, hc, hconn]

/-- Witness for C3 at a state outside a batch with a connected texture
producer probing length 5. -/
theorem c3_witness :
    sampleStateZero.operation_stack = 0
    ∧ (VerifyLength sampleEnv sampleStateZero).1.last_length
        = max (subtitleCandidate sampleEnv)
            (max (videoCandidate sampleEnv) (audioCandidate sampleEnv))
    ∧ (VerifyLength sampleEnv sampleStateZero).1.video_frame_cache.length
        = videoCandidate sampleEnv :=
  ⟨rfl,
   (c3_resolved_length_is_max_of_candidates sampleEnv sampleStateZero rfl).1,
   (c3_resolved_length_is_max_of_candidates sampleEnv sampleStateZero rfl).2.1⟩

/-- C4: `GetLength` always returns the memoized value; a `LengthChanged`
notification fires in a `VerifyLength` call exactly when the freshly
resolved length differs from the memoized one (and the new value is
memoized); and `VerifyLength` is a no-op whenever the operation-stack
counter is nonzero. -/
theorem c4_memoized_length (env : Env) (s : ViewerState) :
    GetLength s = s.last_length
    ∧ (s.operation_stack = 0 →
        ((VerifyLength env s).2 = true ↔ resolvedLength env ≠ s.last_length)
        ∧ (VerifyLength env s).1.last_length = resolvedLength env
        ∧ GetLength (VerifyLength env s).1 = resolvedLength env)
    ∧ (s.operation_stack ≠ 0 → VerifyLength env s = (s, false)) :=
  ⟨rfl,
   fun h => ⟨VerifyLength_snd_iff env s h,
             VerifyLength_fst_last_length env s h,
             VerifyLength_fst_last_length env s h⟩,
   VerifyLength_of_nonzero env s⟩

/-- Witness for C4 at a state outside a batch whose resolved length 5 differs
from the memoized 0. -/
theorem c4_witness :
    sampleStateZero.operation_stack = 0
    ∧ ((VerifyLength sampleEnv sampleStateZero).2 = true
        ↔ resolvedLength sampleEnv ≠ sampleStateZero.last_length)
    ∧ (VerifyLength sampleEnv sampleStateZero).1.last_length = resolvedLength sampleEnv
    ∧ GetLength (VerifyLength sampleEnv sampleStateZero).1 = resolvedLength sampleEnv :=
  ⟨rfl, (c4_memoized_length sampleEnv sampleStateZero).2.1 rfl⟩

/-- Counterexample to C5 as stated: from counter 1 with the resolved length
(5, via the connected producer) differing from the memoized length (0),
`EndOperation` brings the counter back to zero but performs no
re-verification pass and fires no length-change notification: the memoized
length stays stale. -/
theorem c5_counterexample :
    sampleStateBatch.operation_stack = 1
    ∧ (EndOperation sampleStateBatch).1.operation_stack = 0
    ∧ (EndOperation sampleStateBatch).2 = false
    ∧ (EndOperation sampleStateBatch).1.last_length = sampleStateBatch.last_length
    ∧ resolvedLength sampleEnv ≠ sampleStateBatch.last_length
    ∧ (EndOperation sampleStateBatch).1.last_length ≠ resolvedLength sampleEnv := by
  refine ⟨rfl, rfl, rfl, rfl, ?_, ?_⟩ <;> decide

/-- C5 (amended): `EndOperation` from counter 1 only decrements the counter
and fires no length-change notification (none fires while the counter is
nonzero either); no consolidated re-verification pass happens on the
transition itself, and the memoized length is left unchanged.  The
consolidated pass happens at the next `VerifyLength` run after the counter
reaches zero, which then fires at most one notification, exactly when the
resolved length differs from the pre-batch memoized value. -/
theorem c5_amended_no_reverify_on_end (env : Env) (s : ViewerState)
    (h : s.operation_stack = 1) :
    (EndOperation s).2 = false
    ∧ (EndOperation s).1.operation_stack = 0
    ∧ (EndOperation s).1.last_length = s.last_length
    ∧ (VerifyLength env s).2 = false
    ∧ ((VerifyLength env (EndOperation s).1).2 = true ↔ resolvedLength env ≠ s.last_length)
    ∧ (VerifyLength env (EndOperation s).1).1.last_length = resolvedLength env := by
  have h0 : (EndOperation s).1.operation_stack = 0 := by
    show s.operation_stack - 1 = 0
    rw [h]
    decide
  refine ⟨rfl, h0, rfl, ?_, ?_, ?_⟩
  · rw [VerifyLength_of_nonzero env s (by rw [h]; exact one_ne_zero)]
  · exact VerifyLength_snd_iff env (EndOperation s).1 h0
  · exact VerifyLength_fst_last_length env (EndOperation s).1 h0

/-- Witness for the amended C5 at the concrete batched state. -/
theorem c5_witness :
    sampleStateBatch.operation_stack = 1
    ∧ ((EndOperation sampleStateBatch).2 = false
    ∧ (EndOperation sampleStateBatch).1.operation_stack = 0
    ∧ (EndOperation sampleStateBatch).1.last_length = sampleStateBatch.last_length
    ∧ (VerifyLength sampleEnv sampleStateBatch).2 = false
    ∧ ((VerifyLength sampleEnv (EndOperation sampleStateBatch).1).2 = true
        ↔ resolvedLength sampleEnv ≠ sampleStateBatch.last_length)
    ∧ (VerifyLength sampleEnv (EndOperation sampleStateBatch).1).1.last_length
        = resolvedLength sampleEnv) :=
  ⟨rfl, c5_amended_no_reverify_on_end sampleEnv sampleStateBatch rfl⟩

/-- Viewer state outside a batch whose memoized length is 5. -/
def sampleStateLen5 : ViewerState :=
  { operation_stack := 0, last_length := 5,
    video_frame_cache := sampleCache, audio_playback_cache := sampleCache }

/-- C1: with the counter zero, the affected range is clamped to
`[max(0, range.in), min(GetLength(), range.out))`; when the clamped range is
non-degenerate, a texture or video-params source invalidates the video
interval cache with the job-time and a samples or audio-params source
invalidates the audio interval cache with the job-time; a degenerate clamped
range or any other socket name invalidates neither cache. -/
theorem c1_clamped_socket_routing (env : Env) (s : ViewerState) (range : TimeRange)
    (source : String) (element : Int) (t : JobTime) (h : s.operation_stack = 0) :
    (max 0 range.rin ≠ min (GetLength s) range.rout
        ∧ (source = kTextureInput ∨ source = kVideoParamsInput) →
      (InvalidateCache env s range source element t).invalidations
          = [(Medium.video, ⟨max 0 range.rin, min (GetLength s) range.rout⟩, t)]
      ∧ (InvalidateCache env s range source element t).state.video_frame_cache
          = (s.video_frame_cache.Invalidate
              ⟨max 0 range.rin, min (GetLength s) range.rout⟩ t).SetLength
              (videoCandidate env))
    ∧ (max 0 range.rin ≠ min (GetLength s) range.rout
        ∧ (source = kSamplesInput ∨ source = kAudioParamsInput) →
      (InvalidateCache env s range source element t).invalidations
          = [(Medium.audio, ⟨max 0 range.rin, min (GetLength s) range.rout⟩, t)]
      ∧ (InvalidateCache env s range source element t).state.audio_playback_cache
          = (s.audio_playback_cache.Invalidate
              ⟨max 0 range.rin, min (GetLength s) range.rout⟩ t).SetLength
              (audioCandidate env))
    ∧ (max 0 range.rin = min (GetLength s) range.rout
        ∨ (source ≠ kTextureInput ∧ source ≠ kSamplesInput
            ∧ source ≠ kVideoParamsInput ∧ source ≠ kAudioParamsInput) →
      (InvalidateCache env s range source element t).invalidations = []
      ∧ (InvalidateCache env s range source element t).state.video_frame_cache
          = s.video_frame_cache.SetLength (videoCandidate env)
      ∧ (InvalidateCache env s range source element t).state.audio_playback_cache
          = s.audio_playback_cache.SetLength (audioCandidate env)) := by
  refine ⟨?_, ?_, ?_⟩
  · rintro ⟨hd, hs⟩
    unfold InvalidateCache InvalidateCacheCore
    rw [if_pos h]
    dsimp only
    have htr : source = kTextureInput ∨ source = kSamplesInput
        ∨ source = kVideoParamsInput ∨ source = kAudioParamsInput := by tauto
    rw [if_pos htr, if_pos hd, if_pos hs]
    refine ⟨rfl, ?_⟩
    rw [VerifyLength_fst_video_cache env _ (by exact h)]
  · rintro ⟨hd, hs⟩
    unfold InvalidateCache InvalidateCacheCore
    rw [if_pos h]
    dsimp only
    have htr : source = kTextureInput ∨ source = kSamplesInput
        ∨ source = kVideoParamsInput ∨ source = kAudioParamsInput := by tauto
    have hnv : ¬(source = kTextureInput ∨ source = kVideoParamsInput) := by
      rcases hs with hs | hs <;> subst hs <;> rintro (hh | hh) <;> revert hh <;> decide
    rw [if_pos htr, if_pos hd, if_neg hnv]
    refine ⟨rfl, ?_⟩
    rw [VerifyLength_fst_audio_cache env _ (by exact h)]
  · intro hcase
    unfold InvalidateCache InvalidateCacheCore
    rw [if_pos h]
    dsimp only
    rcases hcase with hdeg | huntracked
    · by_cases htr : source = kTextureInput ∨ source = kSamplesInput
          ∨ source = kVideoParamsInput ∨ source = kAudioParamsInput
      · rw [if_pos htr, if_neg (not_not_intro hdeg)]
        exact ⟨rfl,
          by rw [VerifyLength_fst_video_cache env _ (by exact h)],
          by rw [VerifyLength_fst_audio_cache env _ (by exact h)]⟩
      · rw [if_neg htr]
        exact ⟨rfl,
          by rw [VerifyLength_fst_video_cache env _ (by exact h)],
          by rw [VerifyLength_fst_audio_cache env _ (by exact h)]⟩
    · rw [if_neg (by tauto)]
      exact ⟨rfl,
        by rw [VerifyLength_fst_video_cache env _ (by exact h)],
        by rw [VerifyLength_fst_audio_cache env _ (by exact h)]⟩

/-- Witness for C1: clamping `[-1, 3)` into `[0, 5)` gives the non-degenerate
`[0, 3)` and a texture-socket event invalidates the video cache at job-time
7. -/
theorem c1_witness :
    sampleStateLen5.operation_stack = 0
    ∧ max 0 (-1 : ℚ) ≠ min (GetLength sampleStateLen5) 3
    ∧ (InvalidateCache sampleEnv sampleStateLen5 ⟨-1, 3⟩ kTextureInput 2 7).invalidations
        = [(Medium.video, ⟨max 0 (-1 : ℚ), min (GetLength sampleStateLen5) 3⟩, 7)] :=
  ⟨rfl, by decide,
   ((c1_clamped_socket_routing sampleEnv sampleStateLen5 ⟨-1, 3⟩ kTextureInput 2 7 rfl).1
      ⟨by decide, Or.inl rfl⟩).1⟩

/-! Pointwise behaviour of the interval-cache operations. -/

lemma IntervalCache.Invalidate_length (c : IntervalCache) (r : TimeRange) (t : JobTime) :
    (c.Invalidate r t).length = c.length := by
  unfold IntervalCache.Invalidate
  dsimp only
  split <;> rfl

lemma IntervalCache.Validate_length (c : IntervalCache) (r : TimeRange) (t : JobTime) :
    (c.Validate r t).length = c.length := rfl

lemma IntervalCache.Invalidate_validity_at (c : IntervalCache) (r : TimeRange) (t : JobTime)
    (p : ℚ) (h1 : r.rin ≤ p) (h2 : p < r.rout) (h3 : 0 ≤ p) (h4 : p < c.length) :
    (c.Invalidate r t).validity p
      = if (c.validity p).2 ≤ t then (false, t) else c.validity p := by
  unfold IntervalCache.Invalidate
  dsimp only
  have hin : max 0 r.rin ≤ p := max_le h3 h1
  have hout : p < min c.length r.rout := lt_min h4 h2
  rw [if_neg (by
    intro he
    rw [he] at hin
    exact absurd (lt_of_le_of_lt hin hout) (lt_irrefl _))]
  dsimp only
  by_cases hst : (c.validity p).2 ≤ t
  · rw [if_pos ⟨hin, hout, hst⟩, if_pos hst]
  · rw [if_neg (by tauto), if_neg hst]

lemma IntervalCache.Validate_validity_at (c : IntervalCache) (r : TimeRange) (t : JobTime)
    (p : ℚ) (h1 : r.rin ≤ p) (h2 : p < r.rout) :
    (c.Validate r t).validity p
      = if (c.validity p).2 ≤ t then (true, t) else c.validity p := by
  unfold IntervalCache.Validate
  dsimp only
  by_cases hst : (c.validity p).2 ≤ t
  · rw [if_pos ⟨h1, h2, hst⟩, if_pos hst]
  · rw [if_neg (by tauto), if_neg hst]

/-- C6: for overlapping ranges and job-times `t1 < t2`, after an `Invalidate`
and a `Validate` complete in either call order, every point of the overlap
(within the declared length, with a prior stamp at most `t2`) reflects the
operation carrying the larger job-time `t2`, never the one carrying `t1`; in
particular a `Validate` carrying an older job-time than a later `Invalidate`
on the same sub-range is discarded and marks nothing valid. -/
theorem c6_stale_operations_discarded (c : IntervalCache) (r1 r2 : TimeRange)
    (t1 t2 : JobTime) (p : ℚ) (ht : t1 < t2)
    (h11 : r1.rin ≤ p) (h12 : p < r1.rout)
    (h21 : r2.rin ≤ p) (h22 : p < r2.rout)
    (hp0 : 0 ≤ p) (hpl : p < c.length)
    (hst : (c.validity p).2 ≤ t2) :
    ((c.Invalidate r1 t1).Validate r2 t2).validity p = (true, t2)
    ∧ ((c.Validate r2 t2).Invalidate r1 t1).validity p = (true, t2)
    ∧ ((c.Invalidate r1 t2).Validate r2 t1).validity p = (false, t2)
    ∧ ((c.Validate r2 t1).Invalidate r1 t2).validity p = (false, t2) := by
  have hvl : p < (c.Validate r2 t2).length := by
    rw [IntervalCache.Validate_length]; exact hpl
  have hvl1 : p < (c.Validate r2 t1).length := by
    rw [IntervalCache.Validate_length]; exact hpl
  refine ⟨?_, ?_, ?_, ?_⟩
  · rw [IntervalCache.Validate_validity_at _ _ _ _ h21 h22,
        IntervalCache.Invalidate_validity_at c r1 t1 p h11 h12 hp0 hpl]
    by_cases hc : (c.validity p).2 ≤ t1
    · simp [hc, le_of_lt ht]
    · simp [hc, hst]
  · rw [IntervalCache.Invalidate_validity_at _ _ _ _ h11 h12 hp0 hvl,
        IntervalCache.Validate_validity_at c r2 t2 p h21 h22]
    simp [hst, not_le.mpr ht]
  · rw [IntervalCache.Validate_validity_at _ _ _ _ h21 h22,
        IntervalCache.Invalidate_validity_at c r1 t2 p h11 h12 hp0 hpl]
    simp [hst, not_le.mpr ht]
  · rw [IntervalCache.Invalidate_validity_at _ _ _ _ h11 h12 hp0 hvl1,
        IntervalCache.Validate_validity_at c r2 t1 p h21 h22]
    by_cases hc : (c.validity p).2 ≤ t1
    · simp [hc, le_of_lt ht]
    · simp [hc, hst]

/-- Cache with declared length 10, nothing valid and all stamps 0. -/
def c6SampleCache : IntervalCache :=
  { validity := fun _ => (false, 0), length := 10 }

/-- Witness for C6 at ranges `[0,5)` and `[3,8)`, job-times 1 and 2, and
overlap point 4. -/
theorem c6_witness :
    ((1 : JobTime) < 2 ∧ (0 : ℚ) ≤ 4 ∧ (4 : ℚ) < 5 ∧ (3 : ℚ) ≤ 4 ∧ (4 : ℚ) < 8
      ∧ (4 : ℚ) < c6SampleCache.length ∧ (c6SampleCache.validity 4).2 ≤ 2)
    ∧ (((c6SampleCache.Invalidate ⟨0, 5⟩ 1).Validate ⟨3, 8⟩ 2).validity 4 = (true, 2)
      ∧ ((c6SampleCache.Validate ⟨3, 8⟩ 2).Invalidate ⟨0, 5⟩ 1).validity 4 = (true, 2)
      ∧ ((c6SampleCache.Invalidate ⟨0, 5⟩ 2).Validate ⟨3, 8⟩ 1).validity 4 = (false, 2)
      ∧ ((c6SampleCache.Validate ⟨3, 8⟩ 1).Invalidate ⟨0, 5⟩ 2).validity 4 = (false, 2)) :=
  ⟨by refine ⟨by decide, by decide, by decide, by decide, by decide, by decide, by decide⟩,
   c6_stale_operations_discarded c6SampleCache ⟨0, 5⟩ ⟨3, 8⟩ 1 2 4 (by decide)
     (by decide) (by decide) (by decide) (by decide) (by decide) (by decide) (by decide)⟩

/-- Enabled still-image video stream (no meaningful frame rate). -/
def stillVideoStream : VideoParams :=
  { valid := true, videoType := VideoType.still, frameRate := 0, timeBase := 1 / 30,
    duration := 1, enabled := true }

/-- Enabled audio stream: 48 kHz, 600000 samples, i.e. 12.5 seconds. -/
def audioStream48k : AudioParams :=
  { valid := true, sampleRate := 48000, timeBase := 1 / 48000, duration := 600000,
    enabled := true }

/-- Streams state with one enabled still video stream and one enabled audio
stream. -/
def stillPlusAudioStreams : StreamsState :=
  { videoStreams := [stillVideoStream], audioStreams := [audioStream48k] }

/-- Counterexample to C8 as stated: with an enabled valid still video stream
and an enabled valid audio stream, the claim says `rate()` falls back to the
audio stream's value, but the audio branch of `rate()` is an `else if` on the
existence of enabled video streams, so the code returns the empty string
instead of the audio rate. -/
theorem c8_counterexample :
    (GetFirstEnabledVideoStream stillPlusAudioStreams).valid = true
    ∧ (GetFirstEnabledVideoStream stillPlusAudioStreams).videoType = VideoType.still
    ∧ (GetFirstEnabledAudioStream stillPlusAudioStreams).valid = true
    ∧ rateDisplayOf stillPlusAudioStreams = RateDisplay.empty
    ∧ rateDisplayOf stillPlusAudioStreams
        ≠ RateDisplay.hz (GetFirstEnabledAudioStream stillPlusAudioStreams).sampleRate := by
  refine ⟨rfl, rfl, rfl, rfl, ?_⟩
  decide

/-- C8 (amended): `duration()` returns the video value (timecode at the
frame-rate time base) when the first enabled video stream is valid and not a
still image, otherwise falls back to the audio value (demoting a timecode
display to seconds) when an enabled audio stream exists, and otherwise the
empty string; `rate()` returns the video FPS only when an enabled video
stream exists and is not a still (a still yields the empty string with no
audio fallback), the audio rate only when no enabled video stream exists, and
the empty string otherwise. -/
theorem c8_amended_display_queries (s : StreamsState) (tc : Display) :
    ((GetFirstEnabledVideoStream s).valid = true →
        (GetFirstEnabledVideoStream s).videoType ≠ VideoType.still →
        durationDisplayOf s tc
          = DurationDisplay.timecode
              (rescale_timestamp_ceil (GetFirstEnabledVideoStream s).duration
                (GetFirstEnabledVideoStream s).timeBase
                (GetFirstEnabledVideoStream s).frame_rate_as_time_base)
              (GetFirstEnabledVideoStream s).frame_rate_as_time_base tc
        ∧ rateDisplayOf s = RateDisplay.fps (GetFirstEnabledVideoStream s).frameRate)
    ∧ ((GetFirstEnabledVideoStream s).valid = true →
        (GetFirstEnabledVideoStream s).videoType = VideoType.still →
        rateDisplayOf s = RateDisplay.empty)
    ∧ (((GetFirstEnabledVideoStream s).valid = false
          ∨ (GetFirstEnabledVideoStream s).videoType = VideoType.still) →
        (GetFirstEnabledAudioStream s).valid = true →
        durationDisplayOf s tc
          = DurationDisplay.timecode (GetFirstEnabledAudioStream s).duration
              (GetFirstEnabledAudioStream s).timeBase
              (if tc = Display.timecodeDropFrame ∨ tc = Display.timecodeNonDropFrame
               then Display.timecodeSeconds else tc))
    ∧ ((GetFirstEnabledVideoStream s).valid = false →
        (GetFirstEnabledAudioStream s).valid = true →
        rateDisplayOf s = RateDisplay.hz (GetFirstEnabledAudioStream s).sampleRate)
    ∧ (((GetFirstEnabledVideoStream s).valid = false
          ∨ (GetFirstEnabledVideoStream s).videoType = VideoType.still) →
        (GetFirstEnabledAudioStream s).valid = false →
        durationDisplayOf s tc = DurationDisplay.empty)
    ∧ ((GetFirstEnabledVideoStream s).valid = false →
        (GetFirstEnabledAudioStream s).valid = false →
        rateDisplayOf s = RateDisplay.empty) := by
  refine ⟨?_, ?_, ?_, ?_, ?_, ?_⟩
  · intro hv hns
    constructor
    · simp [durationDisplayOf, hv, hns]
    · simp [rateDisplayOf, HasEnabledVideoStreams, hv, hns]
  · intro hv hst
    simp [rateDisplayOf, HasEnabledVideoStreams, hv, hst]
  · rintro (hv | hst) ha
    · simp [durationDisplayOf, hv, ha]
    · simp [durationDisplayOf, hst, ha]
  · intro hv ha
    simp [rateDisplayOf, HasEnabledVideoStreams, HasEnabledAudioStreams, hv, ha]
  · rintro (hv | hst) ha
    · simp [durationDisplayOf, hv, ha]
    · simp [durationDisplayOf, hst, ha]
  · intro hv ha
    simp [rateDisplayOf, HasEnabledVideoStreams, HasEnabledAudioStreams, hv, ha]

/-- Witness for the amended C8: the spec's end-to-end scenario of a still
video stream plus a 12.5-second audio stream, displayed with a non-drop-frame
timecode preference, falls back to the audio duration at a seconds display. -/
theorem c8_witness :
    ((GetFirstEnabledVideoStream stillPlusAudioStreams).valid = false
        ∨ (GetFirstEnabledVideoStream stillPlusAudioStreams).videoType = VideoType.still)
    ∧ (GetFirstEnabledAudioStream stillPlusAudioStreams).valid = true
    ∧ durationDisplayOf stillPlusAudioStreams Display.timecodeNonDropFrame
        = DurationDisplay.timecode (GetFirstEnabledAudioStream stillPlusAudioStreams).duration
            (GetFirstEnabledAudioStream stillPlusAudioStreams).timeBase
            (if Display.timecodeNonDropFrame = Display.timecodeDropFrame
                ∨ Display.timecodeNonDropFrame = Display.timecodeNonDropFrame
             then Display.timecodeSeconds else Display.timecodeNonDropFrame) :=
  ⟨Or.inr rfl, rfl,
   (c8_amended_display_queries stillPlusAudioStreams Display.timecodeNonDropFrame).2.2.1
     (Or.inr rfl) rfl⟩

/-! Socket reconciliation lemmas for the stream registry. -/

lemma inputIdOf_cond (t : TrackType) (ht : t = TrackType.video ∨ t = TrackType.audio) :
    (inputIdOf t = kVideoParamsInput ∨ inputIdOf t = kAudioParamsInput)
    ∧ ((if inputIdOf t = kVideoParamsInput then TrackType.video else TrackType.audio) = t) := by
  rcases ht with h | h <;> subst h <;> exact ⟨by decide, by decide⟩

lemma InputResizedOutputs_grow (t : TrackType)
    (ht : t = TrackType.video ∨ t = TrackType.audio) (old_size new_size : ℕ)
    (h : old_size < new_size) (outs : List (TrackType × ℕ)) :
    InputResizedOutputs (inputIdOf t) old_size new_size outs
      = outs ++ (List.range' old_size (new_size - old_size)).map (fun i => (t, i)) := by
  obtain ⟨hc, hT⟩ := inputIdOf_cond t ht
  simp only [InputResizedOutputs]
  rw [if_pos hc, if_pos h, hT]

lemma InputResizedOutputs_shrink (t : TrackType)
    (ht : t = TrackType.video ∨ t = TrackType.audio) (old_size new_size : ℕ)
    (h : new_size < old_size) (outs : List (TrackType × ℕ)) :
    InputResizedOutputs (inputIdOf t) old_size new_size outs
      = outs.filter
          (fun x => !(x.1 == t && decide (new_size ≤ x.2) && decide (x.2 < old_size))) := by
  obtain ⟨hc, hT⟩ := inputIdOf_cond t ht
  simp only [InputResizedOutputs]
  rw [if_pos hc, if_neg (by omega : ¬ old_size < new_size), if_pos h, hT]

lemma InputResizedOutputs_same (input : String) (old_size : ℕ)
    (outs : List (TrackType × ℕ)) :
    InputResizedOutputs input old_size old_size outs = outs := by
  simp [InputResizedOutputs]

lemma SetStandardValue_outputs {V : Type} (s : RegistryState V) (t : TrackType)
    (i : ℕ) (v : V) : (SetStandardValue s t i v).outputs = s.outputs := rfl

lemma SetStandardValue_arraySize {V : Type} (s : RegistryState V) (t t' : TrackType)
    (i : ℕ) (v : V) : (SetStandardValue s t i v).arraySize t' = s.arraySize t' := rfl

lemma InputArrayAppend_arraySize {V : Type} (s : RegistryState V) (t : TrackType)
    (ht : t = TrackType.video ∨ t = TrackType.audio) :
    (InputArrayAppend s t).arraySize t = s.arraySize t + 1 := by
  rcases ht with h | h <;> subst h <;>
    simp [InputArrayAppend, RegistryState.arraySize]

lemma InputArrayAppend_outputs {V : Type} (s : RegistryState V) (t : TrackType)
    (ht : t = TrackType.video ∨ t = TrackType.audio) :
    (InputArrayAppend s t).outputs = s.outputs ++ [(t, s.arraySize t)] := by
  show InputResizedOutputs (inputIdOf t) (s.arraySize t) (s.arraySize t + 1) s.outputs
      = s.outputs ++ [(t, s.arraySize t)]
  rw [InputResizedOutputs_grow t ht _ _ (Nat.lt_succ_self _)]
  simp [Nat.add_sub_cancel_left, List.range'_one]

lemma AddStream_eq {V : Type} (t : TrackType)
    (ht : t = TrackType.video ∨ t = TrackType.audio) (v : V) (s : RegistryState V) :
    (AddStream t v s).1 = SetStandardValue (InputArrayAppend s t) t (s.arraySize t) v
    ∧ (AddStream t v s).2 = (s.arraySize t : Int) := by
  unfold AddStream
  rw [if_pos ht]
  exact ⟨rfl, rfl⟩

lemma addStreams_spec {V : Type} (t : TrackType)
    (ht : t = TrackType.video ∨ t = TrackType.audio) (v : V) (n : ℕ) :
    (addStreams t v n (emptyRegistry V)).arraySize t = n
    ∧ (addStreams t v n (emptyRegistry V)).outputs
        = (List.range n).map (fun i => (t, i)) := by
  induction n with
  | zero =>
    refine ⟨?_, rfl⟩
    rcases ht with h | h <;> subst h <;> rfl
  | succ k ih =>
    show (AddStream t v (addStreams t v k (emptyRegistry V))).1.arraySize t = k + 1
        ∧ (AddStream t v (addStreams t v k (emptyRegistry V))).1.outputs
            = (List.range (k + 1)).map (fun i => (t, i))
    rw [(AddStream_eq t ht v _).1]
    constructor
    · rw [SetStandardValue_arraySize, InputArrayAppend_arraySize _ t ht, ih.1]
    · rw [SetStandardValue_outputs, InputArrayAppend_outputs _ t ht, ih.1, ih.2,
        List.range_succ]
      simp

lemma filter_pair_map (t : TrackType) (p : ℕ → Bool) (l : List ℕ) :
    ((l.map (fun i => (t, i))).filter (fun x => !(x.1 == t && p x.2)))
      = (l.filter (fun i => !(p i))).map (fun i => (t, i)) := by
  induction l with
  | nil => rfl
  | cons a l ih =>
    rw [List.map_cons, List.filter_cons, List.filter_cons]
    have hhead : (!(((t, a) : TrackType × ℕ).1 == t && p ((t, a) : TrackType × ℕ).2))
        = !(p a) := by
      show (!((t == t) && p a)) = !(p a)
      rw [beq_self_eq_true, Bool.true_and]
    rw [hhead]
    by_cases hp : p a = true
    · rw [if_neg (by rw [hp]; decide), if_neg (by rw [hp]; decide)]
      exact ih
    · have hp' : p a = false := by revert hp; cases p a <;> simp
      rw [if_pos (by rw [hp']; rfl), if_pos (by rw [hp']; rfl), List.map_cons, ih]

lemma range_filter_below (n m : ℕ) (h : m ≤ n) :
    (List.range n).filter (fun i => !(decide (m ≤ i) && decide (i < n)))
      = List.range m := by
  induction n with
  | zero =>
    have : m = 0 := Nat.le_zero.mp h
    subst this
    rfl
  | succ k ih =>
    rcases Nat.lt_or_ge k m with hk | hk
    · have hm : m = k + 1 := by omega
      subst hm
      apply List.filter_eq_self.mpr
      intro a ha
      have ha' : a < k + 1 := List.mem_range.mp ha
      show (!(decide (k + 1 ≤ a) && decide (a < k + 1))) = true
      rw [decide_eq_false (by omega : ¬ k + 1 ≤ a), Bool.false_and]
      rfl
    · rw [List.range_succ, List.filter_append]
      have h1 : (List.range k).filter (fun i => !(decide (m ≤ i) && decide (i < k + 1)))
          = (List.range k).filter (fun i => !(decide (m ≤ i) && decide (i < k))) := by
        apply List.filter_congr
        intro a ha
        have ha' : a < k := List.mem_range.mp ha
        show (!(decide (m ≤ a) && decide (a < k + 1))) = (!(decide (m ≤ a) && decide (a < k)))
        rw [decide_eq_true (by omega : a < k + 1), decide_eq_true ha']
      have h2 : ([k] : List ℕ).filter (fun i => !(decide (m ≤ i) && decide (i < k + 1)))
          = [] := by
        rw [show ([k] : List ℕ) = k :: [] from rfl, List.filter_cons]
        rw [if_neg (by
          rw [decide_eq_true hk, decide_eq_true (Nat.lt_succ_self k)]
          decide)]
        rfl
      rw [h1, h2, ih hk, List.append_nil]

/-- C7: growing the video-params or audio-params array creates exactly the
output sockets for the new index range and shrinking removes exactly the
sockets for the removed index range; consequently adding N streams via
`AddStream` (each returning the index equal to the array size before its
append) and then resizing away the last M leaves exactly the output sockets
addressed by indices `[0, N-M)`, with no socket for a removed index
remaining. -/
theorem c7_add_then_remove_streams (tt : TrackType)
    (ht : tt = TrackType.video ∨ tt = TrackType.audio) {V : Type} (v : V)
    (N M : ℕ) (hM : M ≤ N) :
    (∀ k, k < N → (AddStream tt v (addStreams tt v k (emptyRegistry V))).2 = (k : Int))
    ∧ (InputArrayResize (addStreams tt v N (emptyRegistry V)) tt (N - M)).outputs
        = (List.range (N - M)).map (fun i => (tt, i))
    ∧ (∀ (old_size new_size : ℕ) (outs : List (TrackType × ℕ)) (i : ℕ),
        old_size ≤ new_size →
        ((tt, i) ∈ InputResizedOutputs (inputIdOf tt) old_size new_size outs
          ↔ (tt, i) ∈ outs ∨ (old_size ≤ i ∧ i < new_size)))
    ∧ (∀ (old_size new_size : ℕ) (outs : List (TrackType × ℕ)) (i : ℕ),
        new_size ≤ old_size →
        ((tt, i) ∈ InputResizedOutputs (inputIdOf tt) old_size new_size outs
          ↔ (tt, i) ∈ outs ∧ ¬(new_size ≤ i ∧ i < old_size))) := by
  obtain ⟨hsz, hout⟩ := addStreams_spec tt ht v N
  refine ⟨?_, ?_, ?_, ?_⟩
  · intro k _
    rw [(AddStream_eq tt ht v _).2, (addStreams_spec tt ht v k).1]
  · show InputResizedOutputs (inputIdOf tt)
        ((addStreams tt v N (emptyRegistry V)).arraySize tt) (N - M)
        (addStreams tt v N (emptyRegistry V)).outputs
        = (List.range (N - M)).map (fun i => (tt, i))
    rw [hsz, hout]
    by_cases hlt : N - M < N
    · rw [InputResizedOutputs_shrink tt ht N (N - M) hlt]
      have hforms : ∀ x : TrackType × ℕ,
          (!(x.1 == tt && decide (N - M ≤ x.2) && decide (x.2 < N)))
            = (!(x.1 == tt && (decide (N - M ≤ x.2) && decide (x.2 < N)))) := by
        intro x
        cases x.1 == tt <;> cases decide (N - M ≤ x.2) <;> cases decide (x.2 < N) <;> rfl
      rw [List.filter_congr (fun x _ => hforms x),
        filter_pair_map tt (fun i => decide (N - M ≤ i) && decide (i < N)),
        range_filter_below N (N - M) (Nat.sub_le N M)]
    · have heq : N - M = N := le_antisymm (Nat.sub_le N M) (not_lt.mp hlt)
      rw [heq, InputResizedOutputs_same]
  · intro old_size new_size outs i hle
    rcases Nat.lt_or_ge old_size new_size with hlt | hge
    · rw [InputResizedOutputs_grow tt ht old_size new_size hlt]
      simp only [List.mem_append, List.mem_map, List.mem_range'_1, Prod.mk.injEq]
      constructor
      · rintro (h | ⟨j, ⟨hj1, hj2⟩, _, rfl⟩)
        · exact Or.inl h
        · exact Or.inr ⟨hj1, by omega⟩
      · rintro (h | ⟨h1, h2⟩)
        · exact Or.inl h
        · refine Or.inr ⟨i, ⟨h1, by omega⟩, ?_, ?_⟩ <;> trivial
    · have heq : old_size = new_size := le_antisymm hle hge
      subst heq
      rw [InputResizedOutputs_same]
      constructor
      · exact fun h => Or.inl h
      · rintro (h | ⟨h1, h2⟩)
        · exact h
        · omega
  · intro old_size new_size outs i hle
    rcases Nat.lt_or_ge new_size old_size with hlt | hge
    · rw [InputResizedOutputs_shrink tt ht old_size new_size hlt, List.mem_filter]
      constructor
      · rintro ⟨hmem, hpred⟩
        refine ⟨hmem, ?_⟩
        rintro ⟨hn, ho⟩
        have hpred' : (!((tt, i).1 == tt && decide (new_size ≤ i) && decide (i < old_size)))
            = true := hpred
        rw [decide_eq_true hn, decide_eq_true ho] at hpred'
        simp at hpred'
      · rintro ⟨hmem, hni⟩
        refine ⟨hmem, ?_⟩
        show (!((tt, i).1 == tt && decide (new_size ≤ i) && decide (i < old_size))) = true
        by_cases h1 : new_size ≤ i
        · have h2 : ¬ i < old_size := fun h2 => hni ⟨h1, h2⟩
          rw [decide_eq_false h2]
          simp
        · rw [decide_eq_false h1]
          simp
    · have heq : new_size = old_size := le_antisymm hle hge
      subst heq
      rw [InputResizedOutputs_same]
      refine ⟨fun h => ⟨h, ?_⟩, fun h => h.1⟩
      rintro ⟨h1, h2⟩
      omega

/-- Witness for C7: three video streams added, the last one removed, leaving
the sockets for indices 0 and 1. -/
theorem c7_witness :
    (TrackType.video = TrackType.video ∨ TrackType.video = TrackType.audio)
    ∧ (1 : ℕ) ≤ 3
    ∧ (InputArrayResize (addStreams TrackType.video () 3 (emptyRegistry Unit))
          TrackType.video (3 - 1)).outputs
        = (List.range (3 - 1)).map (fun i => (TrackType.video, i)) :=
  ⟨Or.inl rfl, by decide,
   (c7_add_then_remove_streams TrackType.video (Or.inl rfl) () 3 1 (by decide)).2.1⟩

end Olive
